import Mathlib

/-!
Shallow embedding of the govee-lightwall-touch-controller repository.

The program (main variant, `src/unnamed/part_002`) wires an MPR121
capacitive touch driver (`src/unnamed/part_001`) to a Govee REST wrapper:
touch events are debounced, gated by a time-of-day window, and mapped to
command intents; pins 4..8 rotate through per-pin scene collections.

Times are milliseconds as `Nat`; wall-clock hours are `Nat`.  The remote
API and the `SCENES` lookup table (file `scenes.js`, not part of the core
sources) are collaborators: the table is a parameter `String → Option Nat`
(with JavaScript truthiness of the looked-up id modelled by `truthy`), and
success or failure of `govee.controlDevice` is a parameter `dispatchOk`.
`console.log` lines are collected in a `logs` list; commands passed to
`govee.controlDevice` are collected in a `sent` list (a throwing call is
still recorded there, since the call itself was made).
-/

/-- `devices.capabilities.*` command payload handed to `govee.controlDevice`.
The JavaScript object field `instance` is named `inst` here because
`instance` is a Lean keyword. -/
structure CommandIntent where
  type : String
  inst : String
  value : Nat
deriving DecidableEq

/-- Collaborator inputs of one `handleTouch` run: the wall-clock hour read
by `isAllowedTime`, the `SCENES` table of `scenes.js`, `Object.keys(SCENES)`
with the random index drawn for pin 1, and whether the single
`govee.controlDevice` call of the run succeeds. -/
structure Env where
  hour : Nat
  scenes : String → Option Nat
  sceneNames : List String
  randomIndex : Nat
  dispatchOk : Bool

/-- Observable outcome of one `handleTouch` run: the per-pin
`collectionIndices` map afterwards, the intents passed to
`govee.controlDevice`, and the `console.log` lines. -/
structure TouchResult where
  indices : Nat → Nat
  sent : List CommandIntent
  logs : List String

/-- JavaScript truthiness of a `SCENES[name]` lookup: `undefined` and `0`
are falsy, every other number is truthy. -/
def truthy : Option Nat → Bool
  | none => false
  | some v => v != 0

-- Configuration constants of src/unnamed/part_002.
def TOUCH_DEBOUNCE_MS : Nat := 1000
def ALLOWED_START_HOUR : Nat := 8
def ALLOWED_END_HOUR : Nat := 20

/-- `isAllowedTime` of src/unnamed/part_002, lines 68-74, as a function of
the wall-clock hour it reads from `new Date()`. -/
def isAllowedTime (currentHour : Nat) : Bool :=
  ALLOWED_START_HOUR ≤ currentHour && currentHour < ALLOWED_END_HOUR

/-- `SCENE_COLLECTIONS` of src/unnamed/part_002, keyed by collection name. -/
def SCENE_COLLECTIONS (name : String) : List String :=
  if name == "NIGHT" then
    ["Sunset", "Moon", "Moonlight", "Mountain Forest", "Fire",
     "Forest Fireflies", "Space", "Camping", "Starry Night"]
  else if name == "FUN" then
    ["Groovy", "Shiny Rainbow", "Bubble", "Spider", "Music Note",
     "Love Heart", "UFO", "Lollipop", "Carousel", "Maze"]
  else if name == "HOLIDAY" then
    ["Snowman", "Christmas Tree", "Santa Claus", "Sled", "Christmas Gift",
     "Christmas Wreath"]
  else if name == "NATURE" then
    ["Sea Island", "Starfish", "Wave", "Rainbow", "Mushroom",
     "Flamingo Couple", "Waterfall"]
  else if name == "ARTSY" then
    ["Sunflowers", "Bonsai", "The Scream", "Mondrian", "Graffiti", "Rhomb",
     "Dot Eater"]
  else []

/-- `PIN_TO_COLLECTION` of src/unnamed/part_002. -/
def PIN_TO_COLLECTION (pin : Nat) : Option String :=
  if pin == 4 then some "NIGHT"
  else if pin == 5 then some "FUN"
  else if pin == 6 then some "HOLIDAY"
  else if pin == 7 then some "NATURE"
  else if pin == 8 then some "ARTSY"
  else none

/-- The scene collection a rotation pin is mapped to (the composition the
rotation case of `handleTouch` computes as
`SCENE_COLLECTIONS[PIN_TO_COLLECTION[pin]]`). -/
def pinScenes (pin : Nat) : List String :=
  SCENE_COLLECTIONS ((PIN_TO_COLLECTION pin).getD "")

/-- Initial `collectionIndices` of src/unnamed/part_002: every rotation pin
starts at index 0. -/
def collectionIndices (_pin : Nat) : Nat := 0

/-- The `case 4..8` body of `handleTouch` (src/unnamed/part_002, lines
153-181): read the scene name at the pin's cursor, look it up in `SCENES`;
when the id is truthy and the device may be controlled, send the
dynamic-scene command and, only if that call succeeded, advance the cursor
modulo the collection length; a falsy id does nothing at all. -/
def rotationTouch (env : Env) (idx : Nat → Nat) (pin : Nat)
    (canControlDevice : Bool) : TouchResult :=
  let collection := (PIN_TO_COLLECTION pin).getD ""
  let scenes := pinScenes pin
  let currentIndex := idx pin
  let sceneNameOpt := scenes.get? currentIndex
  let sceneIdOpt := match sceneNameOpt with
    | some n => env.scenes n
    | none => none
  if truthy sceneIdOpt then
    if canControlDevice then
      let intent : CommandIntent :=
        { type := "devices.capabilities.dynamic_scene", inst := "lightScene",
          value := sceneIdOpt.getD 0 }
      if env.dispatchOk then
        { indices := fun p => if p == pin then (currentIndex + 1) % scenes.length else idx p,
          sent := [intent],
          logs := ["Scene set to " ++ sceneNameOpt.getD "" ++ " (" ++ collection ++ " collection)"] }
      else
        { indices := idx, sent := [intent], logs := ["Error controlling light"] }
    else
      { indices := idx, sent := [],
        logs := ["Scene change request ignored - outside allowed time period"] }
  else
    { indices := idx, sent := [], logs := [] }

/-- `handleTouch` of src/unnamed/part_002, lines 79-185, as a pure function
of the collaborator inputs, the current `collectionIndices` map and the pin.
A `govee.controlDevice` call that throws is recorded in `sent` and replaced
by the catch-block log line `Error controlling light`. -/
def handleTouch (env : Env) (idx : Nat → Nat) (pin : Nat) : TouchResult :=
  let isTurnOff := pin == 9
  let canControlDevice := isTurnOff || isAllowedTime env.hour
  if pin == 0 then
    if canControlDevice then
      let intent : CommandIntent :=
        { type := "devices.capabilities.on_off", inst := "powerSwitch", value := 1 }
      if env.dispatchOk then
        { indices := idx, sent := [intent], logs := ["Light turned on"] }
      else
        { indices := idx, sent := [intent], logs := ["Error controlling light"] }
    else
      { indices := idx, sent := [],
        logs := ["Light turn on request ignored - outside allowed time period"] }
  else if pin == 1 then
    if canControlDevice then
      let randomSceneName := env.sceneNames.getD env.randomIndex ""
      let randomSceneId := (env.scenes randomSceneName).getD 0
      let intent : CommandIntent :=
        { type := "devices.capabilities.dynamic_scene", inst := "lightScene",
          value := randomSceneId }
      if env.dispatchOk then
        { indices := idx, sent := [intent],
          logs := ["Random scene set to: " ++ randomSceneName] }
      else
        { indices := idx, sent := [intent], logs := ["Error controlling light"] }
    else
      { indices := idx, sent := [],
        logs := ["Random scene request ignored - outside allowed time period"] }
  else if pin == 9 then
    let intent : CommandIntent :=
      { type := "devices.capabilities.on_off", inst := "powerSwitch", value := 0 }
    if env.dispatchOk then
      { indices := idx, sent := [intent], logs := ["Light turned off"] }
    else
      { indices := idx, sent := [intent], logs := ["Error controlling light"] }
  else if pin == 2 then
    if canControlDevice then
      let intent : CommandIntent :=
        { type := "devices.capabilities.range", inst := "brightness", value := 99 }
      if env.dispatchOk then
        { indices := idx, sent := [intent], logs := ["Brightness set to 100%"] }
      else
        { indices := idx, sent := [intent], logs := ["Error controlling light"] }
    else
      { indices := idx, sent := [],
        logs := ["Brightness change request ignored - outside allowed time period"] }
  else if pin == 3 then
    if canControlDevice then
      let intent : CommandIntent :=
        { type := "devices.capabilities.range", inst := "brightness", value := 1 }
      if env.dispatchOk then
        { indices := idx, sent := [intent], logs := ["Brightness set to 0%"] }
      else
        { indices := idx, sent := [intent], logs := ["Error controlling light"] }
    else
      { indices := idx, sent := [],
        logs := ["Brightness change request ignored - outside allowed time period"] }
  else if pin == 4 || pin == 5 || pin == 6 || pin == 7 || pin == 8 then
    rotationTouch env idx pin canControlDevice
  else
    { indices := idx, sent := [], logs := [] }

/-- Iterated touches on one pin: the `collectionIndices` map after `k`
touches of `pin` under the fixed collaborator inputs `env`. -/
def touchSeq (env : Env) (idx : Nat → Nat) (pin : Nat) : Nat → (Nat → Nat)
  | 0 => idx
  | k + 1 => (handleTouch env (touchSeq env idx pin k) pin).indices

-- Bridging lemma: for the rotation pins the switch dispatches to
-- `rotationTouch` with `canControlDevice = isAllowedTime hour`.
lemma handleTouch_eq_rotation (env : Env) (idx : Nat → Nat) (pin : Nat)
    (h4 : 4 ≤ pin) (h8 : pin ≤ 8) :
    handleTouch env idx pin = rotationTouch env idx pin (isAllowedTime env.hour) := by
  interval_cases pin <;> rfl

/-- C4: the time-window guard returns true exactly on the half-open default
window `[8, 20)` of wall-clock hours; hour 7 is refused, hour 8 allowed,
hour 19 allowed, hour 20 refused. -/
theorem isAllowedTime_halfOpen (hour : Nat) (h : hour < 24) :
    (isAllowedTime hour = true ↔ ALLOWED_START_HOUR ≤ hour ∧ hour < ALLOWED_END_HOUR) ∧
    isAllowedTime 7 = false ∧ isAllowedTime 8 = true ∧
    isAllowedTime 19 = true ∧ isAllowedTime 20 = false := by
  refine ⟨?_, by decide, by decide, by decide, by decide⟩
  simp [isAllowedTime, ALLOWED_START_HOUR, ALLOWED_END_HOUR]

/-- Witness for C4 at hour 19. -/
theorem isAllowedTime_halfOpen_witness :
    (isAllowedTime 19 = true ↔ ALLOWED_START_HOUR ≤ 19 ∧ 19 < ALLOWED_END_HOUR) ∧
    isAllowedTime 7 = false ∧ isAllowedTime 8 = true ∧
    isAllowedTime 19 = true ∧ isAllowedTime 20 = false :=
  isAllowedTime_halfOpen 19 (by decide)

/-- C5: a trigger on pin 9 always passes the power-off intent
(`on_off` / `powerSwitch` / value 0) to the remote API, whatever the
wall-clock hour — the time-window guard never applies to it; in particular
hour 23 is outside the allowed window yet the intent is still dispatched. -/
theorem powerOff_exempt (env : Env) (idx : Nat → Nat) :
    (handleTouch env idx 9).sent =
      [{ type := "devices.capabilities.on_off", inst := "powerSwitch", value := 0 }] ∧
    isAllowedTime 23 = false := by
  refine ⟨?_, by decide⟩
  cases h : env.dispatchOk <;> simp [handleTouch, h]

/-!
`debounce` of src/unnamed/part_002, lines 41-65.  The returned closure
holds ONE `lastRun` timestamp and ONE pending `setTimeout` handle, whatever
arguments the calls carry.  `DebounceState` is that closure state; a
pending deferred fire is `(scheduled time, pin argument)`.  A call at `now`
with `now - lastRun >= wait` runs the wrapped function at once, records
`lastRun = now` and clears the timer; otherwise the previous timer is
cleared and a new one is scheduled `wait` ms after the call, carrying the
call's arguments.  When the timer expires it re-checks
`Date.now() - lastRun >= wait` before firing.  Call times are processed in
chronological order; a pending timer whose scheduled time is reached before
the next call expires first.
-/

structure DebounceState where
  lastRun : Nat
  pending : Option (Nat × Nat)
deriving DecidableEq

/-- The `setTimeout` callback (lines 58-63) run at its scheduled time, when
that time has been reached (`e ≤ upTo`): fire and set `lastRun` if the
window has elapsed since the last run, otherwise do nothing; either way the
timer is spent. -/
def expirePending (wait : Nat) (s : DebounceState) (upTo : Nat) :
    DebounceState × List (Nat × Nat) :=
  match s.pending with
  | none => (s, [])
  | some (e, a) =>
    if e ≤ upTo then
      if wait ≤ e - s.lastRun then
        ({ lastRun := e, pending := none }, [(e, a)])
      else
        ({ lastRun := s.lastRun, pending := none }, [])
    else (s, [])

/-- One call of the debounced closure (`executedFunction`) at time `t` with
argument `a`, after any timer scheduled at or before `t` has expired. -/
def debounceCall (wait : Nat) (s : DebounceState) (t : Nat) (a : Nat) :
    DebounceState × List (Nat × Nat) :=
  let step := expirePending wait s t
  if wait ≤ t - step.1.lastRun then
    ({ lastRun := t, pending := none }, step.2 ++ [(t, a)])
  else
    ({ lastRun := step.1.lastRun, pending := some (t + wait, a) }, step.2)

/-- Process a chronological list of `(time, pin)` calls. -/
def debounceRun (wait : Nat) (s : DebounceState) :
    List (Nat × Nat) → DebounceState × List (Nat × Nat)
  | [] => (s, [])
  | (t, a) :: rest =>
    let step := debounceCall wait s t a
    let tail := debounceRun wait step.1 rest
    (tail.1, step.2 ++ tail.2)

/-- After the last call, a still-pending timer expires at its scheduled
time. -/
def debounceFlush (wait : Nat) (s : DebounceState) : List (Nat × Nat) :=
  match s.pending with
  | some (e, a) => if wait ≤ e - s.lastRun then [(e, a)] else []
  | none => []

/-- All `(time, pin)` fires of the wrapped function produced by a
chronological call trace, starting from the closure's initial state
`lastRun = 0`, no timer. -/
def debounceFires (wait : Nat) (calls : List (Nat × Nat)) : List (Nat × Nat) :=
  let run := debounceRun wait { lastRun := 0, pending := none } calls
  run.2 ++ debounceFlush wait run.1

/-- C1 counterexample: with window 1000 ms, a first call at t = 1000 fires
immediately and a second call at t = 1200 is deferred to t = 2200 (the
suppressed call's time plus the window), not to t = 2000 (`lastFire +
window`) as the claim states. -/
theorem debounce_deferred_at_lastFire_plus_window_cex :
    debounceFires 1000 [(1000, 0), (1200, 1)] = [(1000, 0), (2200, 1)] ∧
    (2000, 1) ∉ debounceFires 1000 [(1000, 0), (1200, 1)] := by
  decide

/-- C1 amended: a call with `now - lastFire >= window` fires immediately,
records `lastFire = now` and clears any pending timer; a call inside the
window schedules the single deferred fire at that call's own time plus the
window (not at `lastFire + window`), replacing both the scheduled time and
the arguments of any previously pending deferred fire (last-call-wins
coalescing); concretely, calls at 1000 and 1200 with window 1000 fire at
1000 and 2200. -/
theorem debounce_immediate_then_coalesce
    (w t₁ t₂ t₃ e : Nat) (s₁ s₂ s₃ : DebounceState) (a₁ a₂ a₃ b : Nat)
    (h₁p : s₁.pending = none) (h₁m : s₁.lastRun ≤ t₁) (h₁ : w ≤ t₁ - s₁.lastRun)
    (h₂p : s₂.pending = none) (h₂ : t₂ - s₂.lastRun < w)
    (h₃p : s₃.pending = some (e, b)) (h₃e : t₃ < e) (h₃ : t₃ - s₃.lastRun < w) :
    debounceCall w s₁ t₁ a₁ = ({ lastRun := t₁, pending := none }, [(t₁, a₁)]) ∧
    debounceCall w s₂ t₂ a₂ =
      ({ lastRun := s₂.lastRun, pending := some (t₂ + w, a₂) }, []) ∧
    debounceCall w s₃ t₃ a₃ =
      ({ lastRun := s₃.lastRun, pending := some (t₃ + w, a₃) }, []) ∧
    (debounceFires 1000 [(1000, 0), (1200, 1)]).map Prod.fst = [1000, 2200] := by
  refine ⟨?_, ?_, ?_, by decide⟩
  · simp [debounceCall, expirePending, h₁p, h₁]
  · simp [debounceCall, expirePending, h₂p, Nat.not_le.mpr h₂]
  · simp [debounceCall, expirePending, h₃p, Nat.not_le.mpr h₃e, Nat.not_le.mpr h₃]

/-- Witness for the amended C1 at concrete states and times. -/
theorem debounce_immediate_then_coalesce_witness :
    debounceCall 1000 { lastRun := 0, pending := none } 1000 5 =
      ({ lastRun := 1000, pending := none }, [(1000, 5)]) ∧
    debounceCall 1000 { lastRun := 1000, pending := none } 1200 6 =
      ({ lastRun := 1000, pending := some (2200, 6) }, []) ∧
    debounceCall 1000 { lastRun := 1000, pending := some (2200, 6) } 1400 7 =
      ({ lastRun := 1000, pending := some (2400, 7) }, []) ∧
    (debounceFires 1000 [(1000, 0), (1200, 1)]).map Prod.fst = [1000, 2200] :=
  debounce_immediate_then_coalesce 1000 1000 1200 1400 2200
    { lastRun := 0, pending := none } { lastRun := 1000, pending := none }
    { lastRun := 1000, pending := some (2200, 6) } 5 6 7 6
    rfl (by decide) (by decide) rfl (by decide) rfl (by decide) (by decide)

/-- C7 counterexample: the debounce closure's state is shared across pins.
Pin 0 fires at t = 1000; a first-ever call for pin 9 at t = 1200 is then
suppressed (deferred to 2200) by pin 0's record, and a further call for
pin 3 at t = 1400 cancels pin 9's deferred fire outright: pin 9 never
fires. -/
theorem debounce_per_key_cex :
    debounceFires 1000 [(1000, 0), (1200, 9)] = [(1000, 0), (2200, 9)] ∧
    debounceFires 1000 [(1000, 0), (1200, 9), (1400, 3)] = [(1000, 0), (2400, 3)] ∧
    (1200, 9) ∉ debounceFires 1000 [(1000, 0), (1200, 9), (1400, 3)] ∧
    ∀ p ∈ debounceFires 1000 [(1000, 0), (1200, 9), (1400, 3)], p.2 ≠ 9 := by
  decide

/-- C7 amended: the debounced handler keeps a single shared record — one
`lastRun` and one pending timer for all pins.  The gating decision and the
fire times ignore the pin argument entirely (only the fired arguments
differ), so a trigger on one channel can suppress, coalesce with, and
cancel triggers on a different channel; concretely, pin 7's first call at
2300 is deferred to 3300 because pin 5 fired at 2000. -/
theorem debounce_state_shared (w t : Nat) (s : DebounceState) (a b : Nat) :
    (debounceCall w s t a).1.lastRun = (debounceCall w s t b).1.lastRun ∧
    (debounceCall w s t a).2.map Prod.fst = (debounceCall w s t b).2.map Prod.fst ∧
    debounceFires 1000 [(2000, 5), (2300, 7)] = [(2000, 5), (3300, 7)] := by
  refine ⟨?_, ?_, by decide⟩ <;>
    · rcases hp : s.pending with _ | ⟨e, c⟩ <;>
        simp only [debounceCall, expirePending, hp] <;>
        split_ifs <;> rfl

/-!
`updateState` of the MPR121 driver (src/unnamed/part_001, lines 232-247):
iterate over the stored 12-entry boolean state; for each channel compute
`current = (touched & (1 << i)) > 0`; when it differs from the stored
value, overwrite the stored value and emit one `touch` or `release` edge
event for that channel.  (The driver also emits a numeric per-pin event
`emit(i, current)` on the same condition; that is not an Edge Event and is
not modelled.)
-/

inductive EdgeKind where
  | Touched
  | Released
deriving DecidableEq

structure Edge where
  channel : Nat
  kind : EdgeKind
deriving DecidableEq

/-- `(touched & (1 << i)) > 0`: bit `i` of the sensor bitmask. -/
def bitOf (touched i : Nat) : Bool := decide (0 < touched &&& (1 <<< i))

/-- The `forEach` body of `updateState`, walking the stored state list from
channel index `i` upward; returns the updated state and the edge events in
emission (ascending channel) order. -/
def updateStateAux (touched : Nat) : List Bool → Nat → List Bool × List Edge
  | [], _ => ([], [])
  | previous :: rest, i =>
    let current := bitOf touched i
    let tail := updateStateAux touched rest (i + 1)
    if previous == current then
      (previous :: tail.1, tail.2)
    else
      (current :: tail.1,
       { channel := i, kind := if current then EdgeKind.Touched else EdgeKind.Released } :: tail.2)

/-- `updateState` of src/unnamed/part_001: new stored state and emitted
edge events for one bitmask sample. -/
def updateState (state : List Bool) (touched : Nat) : List Bool × List Edge :=
  updateStateAux touched state 0

lemma updateStateAux_channel_ge (touched : Nat) (s : List Bool) (i : Nat) :
    ∀ e ∈ (updateStateAux touched s i).2, i ≤ e.channel := by
  induction s generalizing i with
  | nil => intro e he; simp [updateStateAux] at he
  | cons previous rest ih =>
    intro e he
    simp only [updateStateAux] at he
    split at he
    · exact le_trans (Nat.le_succ i) (ih (i + 1) e he)
    · rcases List.mem_cons.mp he with h | h
      · simp [h]
      · exact le_trans (Nat.le_succ i) (ih (i + 1) e h)

lemma updateStateAux_get (touched : Nat) (s : List Bool) (i j : Nat)
    (hj : j < s.length) :
    (updateStateAux touched s i).1.get? j = some (bitOf touched (i + j)) := by
  induction s generalizing i j with
  | nil => simp at hj
  | cons previous rest ih =>
    cases j with
    | zero =>
      simp only [updateStateAux]
      split
      · next hb => simp [List.get?]; exact eq_of_beq hb
      · simp [List.get?]
    | succ j =>
      have hj' : j < rest.length := by simpa using hj
      have := ih (i + 1) j hj'
      simp only [updateStateAux]
      split <;>
        simpa [List.get?, Nat.add_assoc, Nat.add_comm 1 j] using this

lemma updateStateAux_filter (touched : Nat) (s : List Bool) (i j : Nat)
    (hj : j < s.length) :
    (updateStateAux touched s i).2.filter (fun e => e.channel == i + j) =
      (if s.get? j = some (bitOf touched (i + j)) then []
       else [{ channel := i + j,
               kind := if bitOf touched (i + j) then EdgeKind.Touched
                       else EdgeKind.Released }]) := by
  induction s generalizing i j with
  | nil => simp at hj
  | cons previous rest ih =>
    have hrest : ∀ e ∈ (updateStateAux touched rest (i + 1)).2, i + 1 ≤ e.channel :=
      updateStateAux_channel_ge touched rest (i + 1)
    cases j with
    | zero =>
      simp only [updateStateAux]
      split
      · next hb =>
        have hb' : previous = bitOf touched i := eq_of_beq hb
        simp [List.get?, hb']
        intro a ha
        have := hrest a ha
        omega
      · next hb =>
        have hb' : ¬ previous = bitOf touched i := by
          intro h; exact hb (by simp [h])
        simp [List.get?, List.filter, hb']
        intro a ha
        have := hrest a ha
        omega
    | succ j =>
      have hj' : j < rest.length := by simpa using hj
      have key := ih (i + 1) j hj'
      have harith : i + 1 + j = i + (j + 1) := by omega
      rw [harith] at key
      simp only [updateStateAux]
      split
      · simpa [List.get?] using key
      · have hne : (i == i + (j + 1)) = false := by
          simp only [beq_eq_false_iff_ne]
          omega
        simp [List.get?, List.filter, hne, key]

/-- C3: for every channel `c < 12` and stored 12-entry state, one
`updateState` step emits no edge event for `c` when bit `c` of the sample
equals the stored boolean, and exactly one otherwise — `Touched` on a 0→1
transition, `Released` on 1→0 — and afterwards the stored state at `c` is
bit `c` of the sample. -/
theorem updateState_edges (state : List Bool) (touched c : Nat)
    (hlen : state.length = 12) (hc : c < 12) :
    (updateState state touched).1.get? c = some (bitOf touched c) ∧
    (updateState state touched).2.filter (fun e => e.channel == c) =
      (if state.get? c = some (bitOf touched c) then []
       else [{ channel := c,
               kind := if bitOf touched c then EdgeKind.Touched
                       else EdgeKind.Released }]) := by
  have hc' : c < state.length := by omega
  constructor
  · simpa using updateStateAux_get touched state 0 c hc'
  · simpa using updateStateAux_filter touched state 0 c hc'

/-- Witness for C3: stored state all false, sample with bits 0 and 2 set,
channel 2 gets exactly one `Touched` event and the stored bit becomes
true. -/
theorem updateState_edges_witness :
    (updateState (List.replicate 12 false) 5).1.get? 2 = some (bitOf 5 2) ∧
    (updateState (List.replicate 12 false) 5).2.filter (fun e => e.channel == 2) =
      (if (List.replicate 12 false).get? 2 = some (bitOf 5 2) then []
       else [{ channel := 2,
               kind := if bitOf 5 2 then EdgeKind.Touched
                       else EdgeKind.Released }]) :=
  updateState_edges (List.replicate 12 false) 5 2 (by decide) (by decide)

/-!
Behaviour of the rotation case of `handleTouch` under each collaborator
outcome: guard blocked, dispatch failed, dispatch succeeded, and scene id
falsy.
-/

lemma rotationTouch_success (env : Env) (idx : Nat → Nat) (pin : Nat) (name : String)
    (hname : (pinScenes pin).get? (idx pin) = some name)
    (htr : truthy (env.scenes name) = true)
    (hok : env.dispatchOk = true) :
    rotationTouch env idx pin true =
      { indices := fun p => if p == pin then (idx pin + 1) % (pinScenes pin).length else idx p,
        sent := [{ type := "devices.capabilities.dynamic_scene", inst := "lightScene",
                   value := (env.scenes name).getD 0 }],
        logs := ["Scene set to " ++ name ++ " (" ++ (PIN_TO_COLLECTION pin).getD "" ++
                 " collection)"] } := by
  simp only [List.get?_eq_getElem?] at hname
  simp [rotationTouch, hname, htr, hok]

lemma rotationTouch_fail (env : Env) (idx : Nat → Nat) (pin : Nat) (name : String)
    (hname : (pinScenes pin).get? (idx pin) = some name)
    (htr : truthy (env.scenes name) = true)
    (hok : env.dispatchOk = false) :
    rotationTouch env idx pin true =
      { indices := idx,
        sent := [{ type := "devices.capabilities.dynamic_scene", inst := "lightScene",
                   value := (env.scenes name).getD 0 }],
        logs := ["Error controlling light"] } := by
  simp only [List.get?_eq_getElem?] at hname
  simp [rotationTouch, hname, htr, hok]

lemma rotationTouch_blocked (env : Env) (idx : Nat → Nat) (pin : Nat) (name : String)
    (hname : (pinScenes pin).get? (idx pin) = some name)
    (htr : truthy (env.scenes name) = true) :
    rotationTouch env idx pin false =
      { indices := idx, sent := [],
        logs := ["Scene change request ignored - outside allowed time period"] } := by
  simp only [List.get?_eq_getElem?] at hname
  simp [rotationTouch, hname, htr]

lemma rotationTouch_falsy (env : Env) (idx : Nat → Nat) (pin : Nat) (name : String)
    (can : Bool)
    (hname : (pinScenes pin).get? (idx pin) = some name)
    (hfalsy : truthy (env.scenes name) = false) :
    rotationTouch env idx pin can = { indices := idx, sent := [], logs := [] } := by
  simp only [List.get?_eq_getElem?] at hname
  simp [rotationTouch, hname, hfalsy]

lemma pinScenes_pos (pin : Nat) (h4 : 4 ≤ pin) (h8 : pin ≤ 8) :
    0 < (pinScenes pin).length := by
  interval_cases pin <;> decide

/-- C2: for a rotation pin the cursor is atomic with dispatch.  Blocked by
the time guard (`hourB`): the cursor map is unchanged, nothing is sent, and
the next allowed trigger produces exactly what it would have produced had
the blocked call never happened.  Remote dispatch throwing (`dispatchOk =
false`): the cursor map is unchanged, exactly one command was attempted
(no retry), only the error line is logged.  Successful dispatch: the
cursor advances by one modulo the collection length. -/
theorem rotation_cursor_atomic
    (tbl : String → Option Nat) (names : List String) (r hourB hourA : Nat)
    (okB : Bool) (pin : Nat) (idx : Nat → Nat) (name : String)
    (h4 : 4 ≤ pin) (h8 : pin ≤ 8)
    (hB : isAllowedTime hourB = false)
    (hA : isAllowedTime hourA = true)
    (hname : (pinScenes pin).get? (idx pin) = some name)
    (htr : truthy (tbl name) = true) :
    (handleTouch ⟨hourB, tbl, names, r, okB⟩ idx pin).indices = idx ∧
    (handleTouch ⟨hourB, tbl, names, r, okB⟩ idx pin).sent = [] ∧
    handleTouch ⟨hourA, tbl, names, r, true⟩
        ((handleTouch ⟨hourB, tbl, names, r, okB⟩ idx pin).indices) pin =
      handleTouch ⟨hourA, tbl, names, r, true⟩ idx pin ∧
    (handleTouch ⟨hourA, tbl, names, r, false⟩ idx pin).indices = idx ∧
    (handleTouch ⟨hourA, tbl, names, r, false⟩ idx pin).sent =
      [{ type := "devices.capabilities.dynamic_scene", inst := "lightScene",
         value := (tbl name).getD 0 }] ∧
    (handleTouch ⟨hourA, tbl, names, r, false⟩ idx pin).logs = ["Error controlling light"] ∧
    (handleTouch ⟨hourA, tbl, names, r, true⟩ idx pin).indices pin =
      (idx pin + 1) % (pinScenes pin).length := by
  have eB : handleTouch ⟨hourB, tbl, names, r, okB⟩ idx pin =
      { indices := idx, sent := [],
        logs := ["Scene change request ignored - outside allowed time period"] } := by
    rw [handleTouch_eq_rotation _ _ _ h4 h8]
    show rotationTouch _ idx pin (isAllowedTime hourB) = _
    rw [hB]
    exact rotationTouch_blocked _ idx pin name hname htr
  have eF : handleTouch ⟨hourA, tbl, names, r, false⟩ idx pin =
      { indices := idx,
        sent := [{ type := "devices.capabilities.dynamic_scene", inst := "lightScene",
                   value := (tbl name).getD 0 }],
        logs := ["Error controlling light"] } := by
    rw [handleTouch_eq_rotation _ _ _ h4 h8]
    show rotationTouch _ idx pin (isAllowedTime hourA) = _
    rw [hA]
    exact rotationTouch_fail _ idx pin name hname htr rfl
  have eA : handleTouch ⟨hourA, tbl, names, r, true⟩ idx pin =
      { indices := fun p => if p == pin then (idx pin + 1) % (pinScenes pin).length else idx p,
        sent := [{ type := "devices.capabilities.dynamic_scene", inst := "lightScene",
                   value := (tbl name).getD 0 }],
        logs := ["Scene set to " ++ name ++ " (" ++ (PIN_TO_COLLECTION pin).getD "" ++
                 " collection)"] } := by
    rw [handleTouch_eq_rotation _ _ _ h4 h8]
    show rotationTouch _ idx pin (isAllowedTime hourA) = _
    rw [hA]
    exact rotationTouch_success _ idx pin name hname htr rfl
  refine ⟨by rw [eB], by rw [eB], by rw [eB], by rw [eF], by rw [eF], by rw [eF], ?_⟩
  rw [eA]
  simp

/-- Witness for C2: pin 4, scene table mapping every name to id 1,
cursor map constantly 0, guard-blocked at hour 23, allowed at hour 12. -/
theorem rotation_cursor_atomic_witness :
    (handleTouch ⟨23, fun _ => some 1, [], 0, true⟩ (fun _ => 0) 4).indices = (fun _ => 0) ∧
    (handleTouch ⟨23, fun _ => some 1, [], 0, true⟩ (fun _ => 0) 4).sent = [] ∧
    handleTouch ⟨12, fun _ => some 1, [], 0, true⟩
        ((handleTouch ⟨23, fun _ => some 1, [], 0, true⟩ (fun _ => 0) 4).indices) 4 =
      handleTouch ⟨12, fun _ => some 1, [], 0, true⟩ (fun _ => 0) 4 ∧
    (handleTouch ⟨12, fun _ => some 1, [], 0, false⟩ (fun _ => 0) 4).indices = (fun _ => 0) ∧
    (handleTouch ⟨12, fun _ => some 1, [], 0, false⟩ (fun _ => 0) 4).sent =
      [{ type := "devices.capabilities.dynamic_scene", inst := "lightScene",
         value := ((fun _ => some 1) "Sunset").getD 0 }] ∧
    (handleTouch ⟨12, fun _ => some 1, [], 0, false⟩ (fun _ => 0) 4).logs =
      ["Error controlling light"] ∧
    (handleTouch ⟨12, fun _ => some 1, [], 0, true⟩ (fun _ => 0) 4).indices 4 =
      ((fun _ => 0) 4 + 1) % (pinScenes 4).length :=
  rotation_cursor_atomic (fun _ => some 1) [] 0 23 12 true 4 (fun _ => 0) "Sunset"
    (by decide) (by decide) (by decide) (by decide) (by decide) (by decide)

lemma touchSeq_cursor (tbl : String → Option Nat) (names : List String)
    (r hour pin : Nat) (idx : Nat → Nat)
    (h4 : 4 ≤ pin) (h8 : pin ≤ 8)
    (hallowed : isAllowedTime hour = true)
    (htr : ∀ n ∈ pinScenes pin, truthy (tbl n) = true)
    (hlt : idx pin < (pinScenes pin).length) :
    ∀ k, touchSeq ⟨hour, tbl, names, r, true⟩ idx pin k pin =
      (idx pin + k) % (pinScenes pin).length := by
  intro k
  induction k with
  | zero =>
    simp [touchSeq, Nat.mod_eq_of_lt hlt]
  | succ k ih =>
    have hpos := pinScenes_pos pin h4 h8
    have hlt2 : (idx pin + k) % (pinScenes pin).length < (pinScenes pin).length :=
      Nat.mod_lt _ hpos
    have hget : (pinScenes pin).get? (touchSeq ⟨hour, tbl, names, r, true⟩ idx pin k pin) =
        some ((pinScenes pin).get ⟨(idx pin + k) % (pinScenes pin).length, hlt2⟩) := by
      rw [ih]
      exact List.get?_eq_get hlt2
    have hmem : (pinScenes pin).get ⟨(idx pin + k) % (pinScenes pin).length, hlt2⟩
        ∈ pinScenes pin := List.get_mem _ _ _
    have hstep := rotationTouch_success ⟨hour, tbl, names, r, true⟩
      (touchSeq ⟨hour, tbl, names, r, true⟩ idx pin k) pin
      ((pinScenes pin).get ⟨(idx pin + k) % (pinScenes pin).length, hlt2⟩)
      hget (htr _ hmem) rfl
    show (handleTouch ⟨hour, tbl, names, r, true⟩
      (touchSeq ⟨hour, tbl, names, r, true⟩ idx pin k) pin).indices pin = _
    rw [handleTouch_eq_rotation _ _ _ h4 h8]
    show (rotationTouch _ _ pin (isAllowedTime hour)).indices pin = _
    rw [hallowed, hstep]
    simp only [beq_self_eq_true, if_true]
    rw [ih, Nat.mod_add_mod, Nat.add_assoc]

/-- C6: on a rotation pin with the cursor starting at 0, under the time
guard and with every scene of the collection resolving to a truthy id,
the `k`-th successful dispatch sends the scene at index `k mod len` and
leaves the cursor at `k mod len`, which always lies in `[0, len)` — so a
collection of length 3 yields the cursor/scene indices 0, 1, 2, 0 over
four consecutive successful dispatches. -/
theorem rotation_mod_sequence (tbl : String → Option Nat) (names : List String)
    (r hour pin k : Nat) (idx : Nat → Nat)
    (h4 : 4 ≤ pin) (h8 : pin ≤ 8)
    (hallowed : isAllowedTime hour = true)
    (h0 : idx pin = 0)
    (htr : ∀ n ∈ pinScenes pin, truthy (tbl n) = true) :
    touchSeq ⟨hour, tbl, names, r, true⟩ idx pin k pin = k % (pinScenes pin).length ∧
    touchSeq ⟨hour, tbl, names, r, true⟩ idx pin k pin < (pinScenes pin).length ∧
    (handleTouch ⟨hour, tbl, names, r, true⟩
        (touchSeq ⟨hour, tbl, names, r, true⟩ idx pin k) pin).sent =
      [{ type := "devices.capabilities.dynamic_scene", inst := "lightScene",
         value := (tbl ((pinScenes pin).getD (k % (pinScenes pin).length) "")).getD 0 }] := by
  have hpos := pinScenes_pos pin h4 h8
  have hlt : idx pin < (pinScenes pin).length := by rw [h0]; exact hpos
  have hcur := touchSeq_cursor tbl names r hour pin idx h4 h8 hallowed htr hlt k
  rw [h0, Nat.zero_add] at hcur
  have hlt2 : k % (pinScenes pin).length < (pinScenes pin).length := Nat.mod_lt _ hpos
  have hget : (pinScenes pin).get? (touchSeq ⟨hour, tbl, names, r, true⟩ idx pin k pin) =
      some ((pinScenes pin).get ⟨k % (pinScenes pin).length, hlt2⟩) := by
    rw [hcur]
    exact List.get?_eq_get hlt2
  have hmem : (pinScenes pin).get ⟨k % (pinScenes pin).length, hlt2⟩ ∈ pinScenes pin :=
    List.get_mem _ _ _
  have hstep := rotationTouch_success ⟨hour, tbl, names, r, true⟩
    (touchSeq ⟨hour, tbl, names, r, true⟩ idx pin k) pin
    ((pinScenes pin).get ⟨k % (pinScenes pin).length, hlt2⟩)
    hget (htr _ hmem) rfl
  have hgetD : (pinScenes pin).getD (k % (pinScenes pin).length) "" =
      (pinScenes pin).get ⟨k % (pinScenes pin).length, hlt2⟩ := by
    rw [List.getD_eq_get?, List.get?_eq_get hlt2]
    rfl
  refine ⟨hcur, by rw [hcur]; exact hlt2, ?_⟩
  rw [handleTouch_eq_rotation _ _ _ h4 h8]
  show (rotationTouch _ _ pin (isAllowedTime hour)).sent = _
  rw [hallowed, hstep, hgetD]

/-- Witness for C6: pin 6 (HOLIDAY, 6 scenes), every name mapped to id 1,
four successful dispatches from cursor 0: cursor ends at 4 and the fifth
trigger would send the scene at index 4. -/
theorem rotation_mod_sequence_witness :
    touchSeq ⟨12, fun _ => some 1, [], 0, true⟩ (fun _ => 0) 6 4 6 =
      4 % (pinScenes 6).length ∧
    touchSeq ⟨12, fun _ => some 1, [], 0, true⟩ (fun _ => 0) 6 4 6 < (pinScenes 6).length ∧
    (handleTouch ⟨12, fun _ => some 1, [], 0, true⟩
        (touchSeq ⟨12, fun _ => some 1, [], 0, true⟩ (fun _ => 0) 6 4) 6).sent =
      [{ type := "devices.capabilities.dynamic_scene", inst := "lightScene",
         value := ((fun _ => some 1) ((pinScenes 6).getD (4 % (pinScenes 6).length) "")).getD 0 }] :=
  rotation_mod_sequence (fun _ => some 1) [] 0 12 6 4 (fun _ => 0)
    (by decide) (by decide) (by decide) rfl (by intro n _; rfl)

/-- C9: on an authorized trigger the brightness pins send clamped values:
pin 2 ("Brightness 100%") sends `range`/`brightness`/99 and pin 3
("Brightness 0%") sends value 1 — never 100 or 0. -/
theorem brightness_values_clamped (env : Env) (idx : Nat → Nat)
    (h : isAllowedTime env.hour = true) :
    (handleTouch env idx 2).sent =
      [{ type := "devices.capabilities.range", inst := "brightness", value := 99 }] ∧
    (handleTouch env idx 3).sent =
      [{ type := "devices.capabilities.range", inst := "brightness", value := 1 }] := by
  cases hok : env.dispatchOk <;> constructor <;> simp [handleTouch, h, hok]

/-- Witness for C9 at hour 12. -/
theorem brightness_values_clamped_witness :
    (handleTouch ⟨12, fun _ => none, [], 0, true⟩ (fun _ => 0) 2).sent =
      [{ type := "devices.capabilities.range", inst := "brightness", value := 99 }] ∧
    (handleTouch ⟨12, fun _ => none, [], 0, true⟩ (fun _ => 0) 3).sent =
      [{ type := "devices.capabilities.range", inst := "brightness", value := 1 }] :=
  brightness_values_clamped ⟨12, fun _ => none, [], 0, true⟩ (fun _ => 0) (by decide)

lemma touchSeq_stall (env : Env) (idx : Nat → Nat) (pin : Nat) (name : String)
    (h4 : 4 ≤ pin) (h8 : pin ≤ 8)
    (hname : (pinScenes pin).get? (idx pin) = some name)
    (hfalsy : truthy (env.scenes name) = false) :
    ∀ k, touchSeq env idx pin k = idx := by
  intro k
  induction k with
  | zero => rfl
  | succ k ih =>
    show (handleTouch env (touchSeq env idx pin k) pin).indices = idx
    rw [ih, handleTouch_eq_rotation _ _ _ h4 h8,
      rotationTouch_falsy env idx pin name _ hname hfalsy]

/-- C10: on a rotation pin whose current scene name has a falsy `SCENES`
entry, `handleTouch` sends no command, writes no log line and leaves the
cursor map unchanged — and therefore every number of repeated touches on
that pin leaves the state exactly as it was: the channel's rotation is
silently and permanently stalled. -/
theorem missing_scene_silent_stall (env : Env) (idx : Nat → Nat)
    (pin k : Nat) (name : String)
    (h4 : 4 ≤ pin) (h8 : pin ≤ 8)
    (hname : (pinScenes pin).get? (idx pin) = some name)
    (hfalsy : truthy (env.scenes name) = false) :
    handleTouch env idx pin = { indices := idx, sent := [], logs := [] } ∧
    touchSeq env idx pin k = idx := by
  constructor
  · rw [handleTouch_eq_rotation _ _ _ h4 h8,
      rotationTouch_falsy env idx pin name _ hname hfalsy]
  · exact touchSeq_stall env idx pin name h4 h8 hname hfalsy k

/-- Witness for C10: pin 4 at an allowed hour with an empty scene table
and three repeated touches — nothing sent, nothing logged, cursor map
untouched. -/
theorem missing_scene_silent_stall_witness :
    handleTouch ⟨12, fun _ => none, [], 0, true⟩ (fun _ => 0) 4 =
      { indices := fun _ => 0, sent := [], logs := [] } ∧
    touchSeq ⟨12, fun _ => none, [], 0, true⟩ (fun _ => 0) 4 3 = (fun _ => 0) :=
  missing_scene_silent_stall ⟨12, fun _ => none, [], 0, true⟩ (fun _ => 0) 4 3 "Sunset"
    (by decide) (by decide) (by decide) rfl

/-- C8 counterexample: at hour 23 (guard false) a trigger on rotation pin
4 whose scene name is missing from `SCENES` sends no command AND produces
no log line at all — there is no log entry distinguishing the time-guard
suppression from anything else. -/
theorem guard_block_unlogged_cex :
    isAllowedTime 23 = false ∧
    (handleTouch ⟨23, fun _ => none, [], 0, true⟩ (fun _ => 0) 4).sent = [] ∧
    (handleTouch ⟨23, fun _ => none, [], 0, true⟩ (fun _ => 0) 4).logs = [] := by
  refine ⟨by decide, ?_, ?_⟩ <;> rfl

/-- C8 amended: when the time guard disallows a trigger, no command is
sent for any non-power-off pin, and a log line distinguishable from every
executed-case line is produced for the power-on, random-scene and
brightness pins always, and for a rotation pin whenever its current scene
resolves to a truthy `SCENES` id; a rotation pin whose scene id is falsy
produces no log line at all (see the counterexample). -/
theorem guard_suppression_logged_amended (env : Env) (idx : Nat → Nat)
    (pin : Nat) (name : String)
    (hblock : isAllowedTime env.hour = false)
    (h4 : 4 ≤ pin) (h8 : pin ≤ 8)
    (hname : (pinScenes pin).get? (idx pin) = some name)
    (htr : truthy (env.scenes name) = true) :
    (handleTouch env idx 0).sent = [] ∧
    (handleTouch env idx 0).logs =
      ["Light turn on request ignored - outside allowed time period"] ∧
    (handleTouch env idx 1).sent = [] ∧
    (handleTouch env idx 1).logs =
      ["Random scene request ignored - outside allowed time period"] ∧
    (handleTouch env idx 2).sent = [] ∧
    (handleTouch env idx 2).logs =
      ["Brightness change request ignored - outside allowed time period"] ∧
    (handleTouch env idx 3).sent = [] ∧
    (handleTouch env idx 3).logs =
      ["Brightness change request ignored - outside allowed time period"] ∧
    (handleTouch env idx pin).sent = [] ∧
    (handleTouch env idx pin).logs =
      ["Scene change request ignored - outside allowed time period"] := by
  have erot : handleTouch env idx pin =
      { indices := idx, sent := [],
        logs := ["Scene change request ignored - outside allowed time period"] } := by
    rw [handleTouch_eq_rotation _ _ _ h4 h8, hblock,
      rotationTouch_blocked env idx pin name hname htr]
  refine ⟨?_, ?_, ?_, ?_, ?_, ?_, ?_, ?_, by rw [erot], by rw [erot]⟩ <;>
    simp [handleTouch, hblock]

/-- Witness for the amended C8: hour 23, pin 4, every scene name mapped
to id 1. -/
theorem guard_suppression_logged_amended_witness :
    (handleTouch ⟨23, fun _ => some 1, [], 0, true⟩ (fun _ => 0) 0).sent = [] ∧
    (handleTouch ⟨23, fun _ => some 1, [], 0, true⟩ (fun _ => 0) 0).logs =
      ["Light turn on request ignored - outside allowed time period"] ∧
    (handleTouch ⟨23, fun _ => some 1, [], 0, true⟩ (fun _ => 0) 1).sent = [] ∧
    (handleTouch ⟨23, fun _ => some 1, [], 0, true⟩ (fun _ => 0) 1).logs =
      ["Random scene request ignored - outside allowed time period"] ∧
    (handleTouch ⟨23, fun _ => some 1, [], 0, true⟩ (fun _ => 0) 2).sent = [] ∧
    (handleTouch ⟨23, fun _ => some 1, [], 0, true⟩ (fun _ => 0) 2).logs =
      ["Brightness change request ignored - outside allowed time period"] ∧
    (handleTouch ⟨23, fun _ => some 1, [], 0, true⟩ (fun _ => 0) 3).sent = [] ∧
    (handleTouch ⟨23, fun _ => some 1, [], 0, true⟩ (fun _ => 0) 3).logs =
      ["Brightness change request ignored - outside allowed time period"] ∧
    (handleTouch ⟨23, fun _ => some 1, [], 0, true⟩ (fun _ => 0) 4).sent = [] ∧
    (handleTouch ⟨23, fun _ => some 1, [], 0, true⟩ (fun _ => 0) 4).logs =
      ["Scene change request ignored - outside allowed time period"] :=
  guard_suppression_logged_amended ⟨23, fun _ => some 1, [], 0, true⟩ (fun _ => 0) 4 "Sunset"
    (by decide) (by decide) (by decide) (by decide) (by decide)
